import Mathlib

/-!
Verification model of `src/app.py` (youtube-reindex-bot).

The program is a linear pipeline: extract a video id from a URL, fetch
metadata and transcript, fetch news headlines, filter them by sentiment
polarity, ask a chat model for suggested metadata, and optionally commit
the edited suggestion.  Strings are modelled as `List Char`, the float
sentiment polarities as `ℚ`, and each external API response as an explicit
argument (an oracle) to the function that consumes it.  Fallible parsing
returns `Option`.
-/

/-! ### Character helpers -/

/-- Space character (code 32), written via `Char.ofNat`. -/
def spaceChar : Char := Char.ofNat 32

/-- Comma character (code 44). -/
def commaChar : Char := Char.ofNat 44

/-- Colon character (code 58). -/
def colonChar : Char := Char.ofNat 58

/-- Double-quote character (code 34). -/
def dquoteChar : Char := Char.ofNat 34

/-- Single-quote character (code 39). -/
def squoteChar : Char := Char.ofNat 39

/-- Backslash character (code 92). -/
def backslashChar : Char := Char.ofNat 92

/-- Opening curly brace character (code 123). -/
def lbraceChar : Char := Char.ofNat 123

/-- Closing curly brace character (code 125). -/
def rbraceChar : Char := Char.ofNat 125

/-- Opening square bracket character (code 91). -/
def lbrackChar : Char := Char.ofNat 91

/-- Closing square bracket character (code 93). -/
def rbrackChar : Char := Char.ofNat 93

/-- Newline character (code 10). -/
def newlineChar : Char := Char.ofNat 10

/-- Minus character (code 45). -/
def minusChar : Char := Char.ofNat 45

/-! ### Stage 1: identifier extraction (`extract_video_id`, app.py lines 20-22)

The source runs `re.search(r"(?<=v=)[^&#]+", url)` and, if that fails,
`re.search(r"(?<=youtu.be/)[^&#]+", url)`, returning the matched text or
`None`.  `re.search` scans positions left to right; a position matches when
the fixed-width lookbehind holds for the text before it and at least one
character not in `&#` follows; the greedy `+` then captures the maximal run
of such characters.  The regex dot in `youtu.be/` matches any character
except a newline. -/

/-- Characters that terminate a captured identifier (`[^&#]` in the regex). -/
def isStop (c : Char) : Bool := c == '&' || c == '#'

/-- Maximal run of non-terminator characters, the text captured by `[^&#]+`. -/
def capture (l : List Char) : List Char := l.takeWhile (fun c => !isStop c)

/-- Holds when a list is empty or begins with a terminator character: the
text right after a captured segment. -/
def stopsHere : List Char → Bool
  | [] => true
  | c :: _ => isStop c

/-- Lookbehind `(?<=v=)`, applied to the reversed prefix before a position. -/
def lookbehindV : List Char → Bool
  | '=' :: 'v' :: _ => true
  | _ => false

/-- Lookbehind `(?<=youtu.be/)`, applied to the reversed prefix before a
position; the regex dot matches any character except a newline. -/
def lookbehindShort : List Char → Bool
  | '/' :: 'e' :: 'b' :: d :: 'u' :: 't' :: 'u' :: 'o' :: 'y' :: _ => !(d == newlineChar)
  | _ => false

/-- Left-to-right regex scan of `re.search` for a pattern of the form
`(?<=...)[^&#]+`: `pre` is the reversed prefix already scanned; at each
position the lookbehind is tested on `pre` and the head character must not
be a terminator; on success the greedy `[^&#]+` captures the maximal run. -/
def reSearch (look : List Char → Bool) : List Char → List Char → Option (List Char)
  | _, [] => none
  | pre, c :: rest =>
    if look pre && !isStop c then some (capture (c :: rest))
    else reSearch look (c :: pre) rest

/-- Model of `extract_video_id` (app.py lines 20-22): try the `v=` pattern
first, then the `youtu.be/` pattern, and return the captured text of the
first pattern that matches anywhere in the URL, or `none`. -/
def extract_video_id (url : List Char) : Option (List Char) :=
  match reSearch lookbehindV [] url with
  | some m => some m
  | none => reSearch lookbehindShort [] url

/-- Position `p` of the residual list `l` (with reversed already-scanned
prefix `pre`) starts a regex match: the lookbehind holds for the text before
`p` and a non-terminator character sits at `p`. -/
def matchAtPre (look : List Char → Bool) (pre l : List Char) (p : Nat) : Bool :=
  look ((l.take p).reverse ++ pre) &&
    (match l.drop p with
     | c :: _ => !isStop c
     | [] => false)

/-- Position `p` of `url` starts a regex match for the given lookbehind. -/
def matchAt (look : List Char → Bool) (url : List Char) (p : Nat) : Bool :=
  matchAtPre look [] url p

/-! ### JSON values and a model of `json.loads`

`generate_openai_suggestions` parses the chat-model reply with
`json.loads` and returns the parsed value, or `None` when parsing raises.
`json.loads` is modelled for the JSON fragment exercised here: literals,
integers, strings without escape sequences, arrays and objects, with
whitespace between tokens.  Anything outside this fragment is rejected
(parse failure), which on the inputs appearing in this development agrees
with the Python library. -/

/-- JSON values. -/
inductive Json where
  | null : Json
  | bool : Bool → Json
  | num : Int → Json
  | str : List Char → Json
  | arr : List Json → Json
  | obj : List (List Char × Json) → Json

/-- Whitespace characters skipped between JSON tokens. -/
def isWsChar (c : Char) : Bool :=
  c == spaceChar || c == newlineChar || c == Char.ofNat 9 || c == Char.ofNat 13

/-- Drop leading JSON whitespace. -/
def skipWs (l : List Char) : List Char := l.dropWhile isWsChar

/-- Numeric value of a list of decimal digits. -/
def digitsToNat (ds : List Char) : Nat :=
  ds.foldl (fun n c => n * 10 + (c.toNat - 48)) 0

/-- Body of a JSON string after its opening quote: the text up to the next
quote (escape sequences are outside the modelled fragment and rejected). -/
def parseStringBody (l : List Char) : Option (List Char × List Char) :=
  let content := l.takeWhile (fun ch => !(ch == dquoteChar || ch == backslashChar))
  match l.drop content.length with
  | c :: rest => if c == dquoteChar then some (content, rest) else none
  | [] => none

mutual

/-- One JSON value read from the front of the input, with the rest of the
input; the fuel argument bounds recursion depth. -/
def parseValue : Nat → List Char → Option (Json × List Char)
  | 0, _ => none
  | fuel+1, input =>
    match skipWs input with
    | [] => none
    | c :: rest =>
      if c == dquoteChar then
        match parseStringBody rest with
        | some (s, r) => some (Json.str s, r)
        | none => none
      else if c == lbrackChar then
        match skipWs rest with
        | c2 :: r2 =>
          if c2 == rbrackChar then some (Json.arr [], r2)
          else
            match parseArrayItems fuel rest with
            | some (vs, r) => some (Json.arr vs, r)
            | none => none
        | [] => none
      else if c == lbraceChar then
        match skipWs rest with
        | c2 :: r2 =>
          if c2 == rbraceChar then some (Json.obj [], r2)
          else
            match parseObjItems fuel rest with
            | some (fs, r) => some (Json.obj fs, r)
            | none => none
        | [] => none
      else if c == 't' then
        match rest with
        | 'r' :: 'u' :: 'e' :: r => some (Json.bool true, r)
        | _ => none
      else if c == 'f' then
        match rest with
        | 'a' :: 'l' :: 's' :: 'e' :: r => some (Json.bool false, r)
        | _ => none
      else if c == 'n' then
        match rest with
        | 'u' :: 'l' :: 'l' :: r => some (Json.null, r)
        | _ => none
      else if c == minusChar then
        let ds := rest.takeWhile Char.isDigit
        if ds.isEmpty then none
        else some (Json.num (-(Int.ofNat (digitsToNat ds))), rest.drop ds.length)
      else if c.isDigit then
        let ds := (c :: rest).takeWhile Char.isDigit
        some (Json.num (Int.ofNat (digitsToNat ds)), (c :: rest).drop ds.length)
      else none

/-- Comma-separated JSON values up to a closing square bracket. -/
def parseArrayItems : Nat → List Char → Option (List Json × List Char)
  | 0, _ => none
  | fuel+1, l =>
    match parseValue fuel l with
    | none => none
    | some (v, r) =>
      match skipWs r with
      | c :: r2 =>
        if c == commaChar then
          match parseArrayItems fuel r2 with
          | some (vs, r3) => some (v :: vs, r3)
          | none => none
        else if c == rbrackChar then some ([v], r2)
        else none
      | [] => none

/-- Comma-separated JSON object members up to a closing curly brace. -/
def parseObjItems : Nat → List Char → Option (List (List Char × Json) × List Char)
  | 0, _ => none
  | fuel+1, l =>
    match skipWs l with
    | c :: rest =>
      if c == dquoteChar then
        match parseStringBody rest with
        | some (k, r1) =>
          match skipWs r1 with
          | c2 :: r2 =>
            if c2 == colonChar then
              match parseValue fuel r2 with
              | some (v, r3) =>
                match skipWs r3 with
                | c3 :: r4 =>
                  if c3 == commaChar then
                    match parseObjItems fuel r4 with
                    | some (fs, r5) => some ((k, v) :: fs, r5)
                    | none => none
                  else if c3 == rbraceChar then some ([(k, v)], r4)
                  else none
                | [] => none
              | none => none
            else none
          | [] => none
        | none => none
      else none
    | [] => none

end

/-- Model of `json.loads` on the fragment above: parse one value and
require only whitespace after it; `none` models a raised decode error. -/
def json_loads (s : List Char) : Option Json :=
  match parseValue (s.length + 1) s with
  | some (v, r) => if skipWs r = [] then some v else none
  | none => none

/-- Python truthiness of a parsed JSON value, as tested by
`if ai_suggestions:` in the pipeline. -/
def pyTruthy : Json → Bool
  | Json.null => false
  | Json.bool b => b
  | Json.num n => !(n == 0)
  | Json.str s => !s.isEmpty
  | Json.arr xs => !xs.isEmpty
  | Json.obj fs => !fs.isEmpty

/-- Whether an association list of object members carries a given key. -/
def hasKey (fields : List (List Char × Json)) (k : List Char) : Bool :=
  fields.any (fun p => p.1 == k)

/-- Expected shape of a suggestion reply: a JSON object carrying the keys
`title`, `description` and `tags`.  Stated from the spec wording; the
source never checks this. -/
def isExpectedShape : Option Json → Bool
  | some (Json.obj fields) =>
      hasKey fields ("title".toList) && hasKey fields ("description".toList) &&
        hasKey fields ("tags".toList)
  | _ => false

/-! ### Stage 2: metadata retrieval (`get_video_metadata`, app.py lines 25-37)

The platform API response is modelled as an optional list of snippets:
`none` for a response carrying no `items` key, `some l` for a response
whose `items` value is the list `l`.  The source returns `None` when the
key is missing or the list is empty, and otherwise reads the first
snippet, defaulting `tags` to the empty list. -/

/-- Snippet fields of one item of the platform response; `tags` is `none`
when the field is absent. -/
structure Snippet where
  title : List Char
  description : List Char
  tags : Option (List (List Char))

/-- Platform API response for a video lookup: `items` is `none` when the
response has no `items` key. -/
structure VideosResponse where
  items : Option (List Snippet)

/-- Metadata bundle returned by `get_video_metadata`. -/
structure VideoMetadata where
  title : List Char
  description : List Char
  tags : List (List Char)

/-- Model of `get_video_metadata` (app.py lines 25-37). -/
def get_video_metadata (resp : VideosResponse) : Option VideoMetadata :=
  match resp.items with
  | none => none
  | some [] => none
  | some (s :: _) => some ⟨s.title, s.description, s.tags.getD []⟩

/-! ### Stage 3: transcript retrieval (`get_video_transcript`, app.py lines 40-46)

The captions API outcome is modelled as `none` for any raised error and
`some segs` for a successful fetch of the caption segment texts in source
order.  The source joins the texts with `" ".join` and turns every failure
into a fixed placeholder string. -/

/-- Model of `get_video_transcript` (app.py lines 40-46). -/
def get_video_transcript (fetched : Option (List (List Char))) : List Char :=
  match fetched with
  | some segs => List.intercalate (" ".toList) segs
  | none => "Transcript not available.".toList

/-! ### Stage 4: news discovery (`fetch_google_news`, app.py lines 49-56) -/

/-- One article of the news API response; only `title` is consumed. -/
structure Article where
  title : List Char

/-- News API response: `articles` is `none` when the response has no
`articles` key. -/
structure NewsResponse where
  articles : Option (List Article)

/-- Model of `fetch_google_news` (app.py lines 49-56): the first five
article titles in response order, or the empty list when the `articles`
key is absent. -/
def fetch_google_news (resp : NewsResponse) : List (List Char) :=
  match resp.articles with
  | some arts => (arts.take 5).map Article.title
  | none => []

/-! ### Stage 5: relevance filtering (`check_similarity`, app.py lines 59-65)

`TextBlob(s).sentiment.polarity` is an external float computation; it is
modelled as an arbitrary function `polarity : List Char → ℚ` passed as a
parameter, the float values being read as rationals. -/

/-- Model of `check_similarity` (app.py lines 59-65): the loop appends a
headline when the absolute polarity difference is strictly below `0.2`. -/
def check_similarity (polarity : List Char → ℚ) (video_content : List Char)
    (news_titles : List (List Char)) : List (List Char) :=
  news_titles.foldl
    (fun similarities news_title =>
      if |polarity video_content - polarity news_title| < (0.2 : ℚ)
      then similarities ++ [news_title] else similarities)
    []

/-! ### Stage 6: suggestion generation (`generate_openai_suggestions`,
app.py lines 68-91) -/

/-- Text of the prompt f-string before the inserted video title. -/
def promptPart1 : List Char :=
  "\n    Given a YouTube video with the title: ".toList ++ [squoteChar]

/-- Text of the prompt f-string between the title and the transcript. -/
def promptPart2 : List Char :=
  [squoteChar] ++ ", and the following transcript snippet: ".toList ++ [squoteChar]

/-- Text of the prompt f-string between the transcript and the topics. -/
def promptPart3 : List Char :=
  [squoteChar] ++ ",\n    optimize the video metadata based on these trending news topics: ".toList

/-- Text of the prompt f-string after the inserted topics. -/
def promptPart4 : List Char :=
  ".\n\n    Suggest:\n    1. A new click-worthy title that aligns with trending topics.\n    2. A well-crafted description incorporating the trends.\n    3. The best tags to improve search visibility.\n\n    Format the response as JSON with keys: \"title\", \"description\", \"tags\".\n    ".toList

/-- Prompt built by `generate_openai_suggestions` (app.py lines 69-79):
the f-string inserts the video title, the first 500 characters of the
transcript, and the printed form of the trending-topics list. -/
def buildPrompt (video_title transcript trending_repr : List Char) : List Char :=
  promptPart1 ++ video_title ++ promptPart2 ++ transcript.take 500 ++
    promptPart3 ++ trending_repr ++ promptPart4

/-- Python `repr` of a list of strings, the text the f-string inserts for
`trending_topics` (quoting of embedded special characters is not needed
for the inputs of this development). -/
def pyReprStrList (xs : List (List Char)) : List Char :=
  [lbrackChar] ++
    List.intercalate (", ".toList) (xs.map (fun s => [squoteChar] ++ s ++ [squoteChar])) ++
    [rbrackChar]

/-- Model of `generate_openai_suggestions` (app.py lines 68-91): build the
prompt, send it, and parse the chat-model reply (an oracle argument) with
`json.loads`; a parse error yields `none`, any parsed value is returned
unchecked. -/
def generate_openai_suggestions (video_title transcript trending_repr modelReply : List Char) :
    Option Json :=
  let _prompt := buildPrompt video_title transcript trending_repr
  json_loads modelReply

/-! ### Stage 7: the tags round trip of the commit path (app.py lines 153-156)

Line 153 pre-fills the editable tags field with `", ".join(tags)`; line
156 sends `new_tags.split(",")` to the update call. -/

/-- Python `", ".join` on a list of tag strings (app.py line 153). -/
def joinTags (tags : List (List Char)) : List Char :=
  List.intercalate (", ".toList) tags

/-- Python `split(",")` for the single-character separator `,`
(app.py line 156): split at every comma, keeping empty pieces. -/
def splitComma : List Char → List (List Char)
  | [] => [[]]
  | c :: rest =>
    if c == commaChar then [] :: splitComma rest
    else
      match splitComma rest with
      | [] => [[c]]
      | g :: gs => (c :: g) :: gs

/-! ### The module-level pipeline (app.py lines 109-168)

One interactive run is modelled as a pure function of the submitted URL
and an environment of oracle values: what each external API would return
during this run.  The result records the terminal status shown to the
operator and which outbound calls the run issued (the startup client
construction of line 17 is outside the per-run model). -/

/-- Oracle values for the external calls of one run. -/
structure Env where
  metadataResp : VideosResponse
  transcriptFetch : Option (List (List Char))
  newsResp : NewsResponse
  polarity : List Char → ℚ
  modelReply : List Char

/-- Terminal status of a run, one per surfaced message of the UI chain. -/
inductive RunStatus where
  | emptyUrl : RunStatus
  | invalidURL : RunStatus
  | metadataNotFound : RunStatus
  | newsFetchEmpty : RunStatus
  | noRelevantNews : RunStatus
  | suggestionParseFailure : RunStatus
  | suggestionsReady : RunStatus
deriving DecidableEq

/-- Outcome of a run: terminal status, which outbound calls were issued,
and the suggestion object when one was produced. -/
structure RunResult where
  status : RunStatus
  calledMetadata : Bool
  calledTranscript : Bool
  calledNews : Bool
  calledOpenAI : Bool
  suggestion : Option Json

/-- Content string compared against each headline (app.py line 139): the
video title, a space, and the transcript. -/
def videoContent (md : VideoMetadata) (transcript : List Char) : List Char :=
  md.title ++ " ".toList ++ transcript

/-- Model of the module-level pipeline (app.py lines 112-160): each gate
mirrors a Python truthiness test of the source in order.  Lines 119-120
issue the metadata and transcript calls together before the metadata gate
of line 122 is tested. -/
def runPipeline (env : Env) (video_url : List Char) : RunResult :=
  if video_url = [] then ⟨RunStatus.emptyUrl, false, false, false, false, none⟩
  else
    match extract_video_id video_url with
    | none => ⟨RunStatus.invalidURL, false, false, false, false, none⟩
    | some _vid =>
      let video_metadata := get_video_metadata env.metadataResp
      let video_transcript := get_video_transcript env.transcriptFetch
      match video_metadata with
      | none => ⟨RunStatus.metadataNotFound, true, true, false, false, none⟩
      | some md =>
        let news_titles := fetch_google_news env.newsResp
        if news_titles = [] then ⟨RunStatus.newsFetchEmpty, true, true, true, false, none⟩
        else
          let video_content := videoContent md video_transcript
          let matching_news := check_similarity env.polarity video_content news_titles
          if matching_news = [] then ⟨RunStatus.noRelevantNews, true, true, true, false, none⟩
          else
            match generate_openai_suggestions md.title video_transcript
                (pyReprStrList matching_news) env.modelReply with
            | some s =>
              if pyTruthy s then ⟨RunStatus.suggestionsReady, true, true, true, true, some s⟩
              else ⟨RunStatus.suggestionParseFailure, true, true, true, true, some s⟩
            | none => ⟨RunStatus.suggestionParseFailure, true, true, true, true, none⟩

/-! ### Spec-side definitions

These restate contracts in the words of the specification, independently
of the implementation shapes above, for the refinement theorems. -/

/-- Concatenation of caption segments separated by single spaces, written
as the specification describes it. -/
def specJoin : List (List Char) → List Char
  | [] => []
  | [s] => s
  | s :: rest => s ++ " ".toList ++ specJoin rest

/-! ### Concrete values used by the closed instances below -/

/-- Example URL of the specification, query-parameter form. -/
def urlWatch : List Char :=
  "https://www.youtube.com/watch?v=dQw4w9WgXcQ&feature=share".toList

/-- Example URL of the specification, short-link form. -/
def urlShort : List Char := "https://youtu.be/dQw4w9WgXcQ".toList

/-- Example URL of the specification matching neither pattern. -/
def urlOther : List Char := "https://example.com/video".toList

/-- Short-link URL that also carries a `v=` query parameter. -/
def urlBoth : List Char := "https://youtu.be/abc?v=xyz".toList

/-- Well-formed suggestion reply of the specification. -/
def goodReply : List Char :=
  "\x7b\"title\":\"A\",\"description\":\"B\",\"tags\":[\"x\",\"y\"]\x7d".toList

/-- Valid JSON reply that does not carry the three expected keys. -/
def wrongShapeReply : List Char := "\x7b\"foo\": 1\x7d".toList

/-- Reply that is not valid JSON. -/
def notJsonReply : List Char := "not json at all".toList

/-- Polarity oracle giving `0` to the empty string and `1/5` to every
other string. -/
def polWitness : List Char → ℚ := fun s => if s = [] then 0 else 1/5

/-- Environment whose platform response carries an empty `items` list and
whose captions fetch succeeds. -/
def envNoItems : Env :=
  ⟨⟨some []⟩, some ["hello".toList], ⟨some [⟨"head".toList⟩]⟩, fun _ => 0, goodReply⟩

/-- Environment for runs that never pass the URL gate. -/
def envIdle : Env :=
  ⟨⟨none⟩, none, ⟨none⟩, fun _ => 0, notJsonReply⟩

/-! ### Lemmas about the regex scan -/

/-- No position of an empty residual list starts a match. -/
theorem matchAtPre_nil (look : List Char → Bool) (pre : List Char) (p : Nat) :
    matchAtPre look pre [] p = false := by
  simp [matchAtPre]

/-- Position `0` of a nonempty residual list starts a match exactly when
the lookbehind holds for the scanned prefix and the head is kept. -/
theorem matchAtPre_zero (look : List Char → Bool) (pre : List Char) (c : Char)
    (rest : List Char) :
    matchAtPre look pre (c :: rest) 0 = (look pre && !isStop c) := by
  simp [matchAtPre]

/-- Shifting the scan by one character shifts match positions by one. -/
theorem matchAtPre_succ (look : List Char → Bool) (pre : List Char) (c : Char)
    (rest : List Char) (q : Nat) :
    matchAtPre look pre (c :: rest) (q + 1) = matchAtPre look (c :: pre) rest q := by
  simp [matchAtPre, List.take_succ_cons, List.drop_succ_cons, List.append_assoc]

/-- The scan returns `none` exactly when no position starts a match. -/
theorem reSearch_eq_none (look : List Char → Bool) :
    ∀ (l pre : List Char),
      (reSearch look pre l = none ↔ ∀ p, matchAtPre look pre l p = false) := by
  intro l
  induction l with
  | nil =>
    intro pre
    simp [reSearch, matchAtPre_nil]
  | cons c rest ih =>
    intro pre
    rw [reSearch]
    by_cases hc : (look pre && !isStop c) = true
    · rw [if_pos hc]
      constructor
      · intro h; exact absurd h (by simp)
      · intro hall
        have h0 := hall 0
        rw [matchAtPre_zero, hc] at h0
        exact absurd h0 (by simp)
    · rw [if_neg hc, ih (c :: pre)]
      constructor
      · intro hall p
        cases p with
        | zero =>
          rw [matchAtPre_zero]
          exact Bool.eq_false_iff.mpr hc
        | succ q =>
          rw [matchAtPre_succ]
          exact hall q
      · intro hall p
        have h := hall (p + 1)
        rwa [matchAtPre_succ] at h

/-- The scan returns the capture of the leftmost position starting a match. -/
theorem reSearch_eq_some (look : List Char → Bool) :
    ∀ (l pre : List Char) (p : Nat),
      (∀ q, q < p → matchAtPre look pre l q = false) →
      matchAtPre look pre l p = true →
      reSearch look pre l = some (capture (l.drop p)) := by
  intro l
  induction l with
  | nil =>
    intro pre p _ hp
    rw [matchAtPre_nil] at hp
    exact absurd hp (by simp)
  | cons c rest ih =>
    intro pre p hmin hp
    rw [reSearch]
    cases p with
    | zero =>
      rw [matchAtPre_zero] at hp
      rw [if_pos hp, List.drop_zero]
    | succ q =>
      have h0 := hmin 0 (Nat.succ_pos q)
      rw [matchAtPre_zero] at h0
      rw [if_neg (by simp [h0])]
      rw [matchAtPre_succ] at hp
      have hmin2 : ∀ r, r < q → matchAtPre look (c :: pre) rest r = false := by
        intro r hr
        have h := hmin (r + 1) (Nat.succ_lt_succ hr)
        rwa [matchAtPre_succ] at h
      exact ih (c :: pre) q hmin2 hp

/-- A run of kept characters followed by a terminating residue is exactly
what the greedy `[^&#]+` captures. -/
theorem capture_eq (x r : List Char) (hx : ∀ c ∈ x, isStop c = false)
    (hr : stopsHere r = true) : capture (x ++ r) = x := by
  induction x with
  | nil =>
    cases r with
    | nil => rfl
    | cons c r2 =>
      simp only [stopsHere] at hr
      simp [capture, List.takeWhile_cons, hr]
  | cons a x2 ih =>
    have ha : isStop a = false := hx a (by simp)
    have ih2 : capture (x2 ++ r) = x2 := ih (fun c hc => hx c (by simp [hc]))
    calc capture ((a :: x2) ++ r) = a :: capture (x2 ++ r) := by
          simp [capture, List.takeWhile_cons, ha]
      _ = a :: x2 := by rw [ih2]

/-! ### Lemmas about joining and splitting -/

/-- Unfolding of `List.intercalate` on a list of two or more pieces. -/
theorem intercalate_cons_cons (sep a b : List Char) (l : List (List Char)) :
    List.intercalate sep (a :: b :: l) = a ++ sep ++ List.intercalate sep (b :: l) := by
  simp [List.intercalate, List.intersperse, List.flatten_cons, List.append_assoc]

/-- A space-separated join equals its specification-side recursion. -/
theorem intercalate_space_eq_specJoin :
    ∀ segs : List (List Char), List.intercalate (" ".toList) segs = specJoin segs := by
  intro segs
  induction segs with
  | nil => simp [List.intercalate, specJoin]
  | cons s rest ih =>
    cases rest with
    | nil => simp [List.intercalate, specJoin]
    | cons t rest2 =>
      rw [intercalate_cons_cons, ih]
      simp [specJoin]

/-- The comma-space separator as an explicit character list. -/
theorem sep_toList (x : List Char) :
    ", ".toList ++ x = commaChar :: (spaceChar :: x) := rfl

/-- Splitting a comma-free string on commas keeps it whole. -/
theorem splitComma_no_comma :
    ∀ t : List Char, (∀ c ∈ t, ¬(c = commaChar)) → splitComma t = [t] := by
  intro t
  induction t with
  | nil => intro _; rfl
  | cons a t2 ih =>
    intro h
    have ha : ¬(a = commaChar) := h a (by simp)
    rw [splitComma, if_neg (by simp [ha]), ih (fun c hc => h c (by simp [hc]))]

/-- Splitting past a comma-free piece peels off exactly that piece. -/
theorem splitComma_append :
    ∀ (t s : List Char), (∀ c ∈ t, ¬(c = commaChar)) →
      splitComma (t ++ commaChar :: s) = t :: splitComma s := by
  intro t
  induction t with
  | nil =>
    intro s _
    rw [List.nil_append, splitComma, if_pos (by simp)]
  | cons a t2 ih =>
    intro s h
    have ha : ¬(a = commaChar) := h a (by simp)
    rw [List.cons_append, splitComma, if_neg (by simp [ha]),
      ih s (fun c hc => h c (by simp [hc]))]

/-- Round trip of the commit path on comma-free tags: joining with a
comma-space separator and splitting on commas keeps the first tag and
puts a leading space on every later tag. -/
theorem splitComma_joinTags :
    ∀ (ts : List (List Char)) (t : List Char),
      (∀ c ∈ t, ¬(c = commaChar)) → (∀ s ∈ ts, ∀ c ∈ s, ¬(c = commaChar)) →
      splitComma (joinTags (t :: ts)) = t :: ts.map (fun s => spaceChar :: s) := by
  intro ts
  induction ts with
  | nil =>
    intro t ht _
    rw [joinTags]
    simp only [List.intercalate, List.intersperse, List.flatten]
    simp
    exact splitComma_no_comma t ht
  | cons t2 ts2 ih =>
    intro t ht hts
    rw [joinTags, intercalate_cons_cons, List.append_assoc, sep_toList,
      splitComma_append t _ ht]
    congr 1
    rw [splitComma, if_neg (by decide)]
    have ih2 := ih t2 (hts t2 (by simp)) (fun s hs => hts s (by simp [hs]))
    rw [joinTags] at ih2
    rw [ih2]
    rfl

/-! ### Lemmas about the relevance loop -/

/-- The append-in-a-loop of `check_similarity` is a filter. -/
theorem foldl_append_filter (p : List Char → Prop) [DecidablePred p] :
    ∀ (ts acc : List (List Char)),
      ts.foldl (fun a t => if p t then a ++ [t] else a) acc =
        acc ++ ts.filter (fun t => decide (p t)) := by
  intro ts
  induction ts with
  | nil => intro acc; simp
  | cons t ts2 ih =>
    intro acc
    by_cases hp : p t
    · simp [List.foldl_cons, hp, ih, List.filter_cons, List.append_assoc]
    · simp [List.foldl_cons, hp, ih, List.filter_cons]

/-- `check_similarity` filters the headlines by the strict threshold test. -/
theorem check_similarity_eq_filter (pol : List Char → ℚ) (vc : List Char)
    (ts : List (List Char)) :
    check_similarity pol vc ts =
      ts.filter (fun t => decide (|pol vc - pol t| < (0.2 : ℚ))) := by
  rw [check_similarity, foldl_append_filter, List.nil_append]

/-! ### Claim theorems -/

/-- C1: for every URL in which some position starts a match of the
query-parameter pattern `v=...` (taking the leftmost such position, with
the captured segment running up to the next `&` or `#`), or failing that a
match of the short-link pattern `youtu.be/...`, `extract_video_id`
returns exactly the captured segment; for every URL in which neither
pattern matches anywhere, it returns `none`.  The three example URLs of
the specification behave as stated. -/
theorem C1_extract_video_id_correct :
    (∀ (url : List Char) (p : Nat) (x r : List Char),
        (∀ q, q < p → matchAt lookbehindV url q = false) →
        matchAt lookbehindV url p = true →
        url.drop p = x ++ r →
        (∀ c ∈ x, isStop c = false) →
        stopsHere r = true →
        extract_video_id url = some x)
    ∧ (∀ (url : List Char) (p : Nat) (x r : List Char),
        (∀ q, matchAt lookbehindV url q = false) →
        (∀ q, q < p → matchAt lookbehindShort url q = false) →
        matchAt lookbehindShort url p = true →
        url.drop p = x ++ r →
        (∀ c ∈ x, isStop c = false) →
        stopsHere r = true →
        extract_video_id url = some x)
    ∧ (∀ url : List Char, extract_video_id url = none ↔
        ((∀ p, matchAt lookbehindV url p = false) ∧
          (∀ p, matchAt lookbehindShort url p = false)))
    ∧ extract_video_id urlWatch = some ("dQw4w9WgXcQ".toList)
    ∧ extract_video_id urlShort = some ("dQw4w9WgXcQ".toList)
    ∧ extract_video_id urlOther = none := by
  refine ⟨?_, ?_, ?_, by decide, by decide, by decide⟩
  · intro url p x r hmin hp hdrop hx hr
    have h1 := reSearch_eq_some lookbehindV url [] p hmin hp
    rw [extract_video_id, h1, hdrop, capture_eq x r hx hr]
  · intro url p x r hVnone hmin hp hdrop hx hr
    have hV : reSearch lookbehindV [] url = none :=
      (reSearch_eq_none lookbehindV url []).mpr hVnone
    have h1 := reSearch_eq_some lookbehindShort url [] p hmin hp
    rw [extract_video_id, hV, h1, hdrop, capture_eq x r hx hr]
  · intro url
    constructor
    · intro h
      cases hV : reSearch lookbehindV [] url with
      | some m =>
        rw [extract_video_id, hV] at h
        exact absurd h (by simp)
      | none =>
        rw [extract_video_id, hV] at h
        exact ⟨(reSearch_eq_none lookbehindV url []).mp hV,
          (reSearch_eq_none lookbehindShort url []).mp h⟩
    · intro h
      rw [extract_video_id, (reSearch_eq_none lookbehindV url []).mpr h.1]
      exact (reSearch_eq_none lookbehindShort url []).mpr h.2

/-- Witness for C1: the query-parameter example URL of the specification,
matched at position 32, yields exactly the identifier. -/
theorem C1_extract_video_id_correct_witness :
    extract_video_id urlWatch = some ("dQw4w9WgXcQ".toList) :=
  C1_extract_video_id_correct.1 urlWatch 32 ("dQw4w9WgXcQ".toList)
    ("&feature=share".toList) (by decide) (by decide) (by decide) (by decide) (by decide)

/-- C10: on a short-link URL that also carries a `v=` query parameter both
patterns match, and `extract_video_id` returns the `v=` capture, not the
short-link path segment: the query-parameter pattern takes precedence
whenever it matches at all. -/
theorem C10_query_pattern_precedence :
    (extract_video_id urlBoth = some ("xyz".toList)
      ∧ reSearch lookbehindShort [] urlBoth = some ("abc?v=xyz".toList))
    ∧ (∀ (url m : List Char), reSearch lookbehindV [] url = some m →
        extract_video_id url = some m) := by
  refine ⟨by decide, ?_⟩
  intro url m h
  rw [extract_video_id, h]

/-- Witness for C10 at the dual-pattern URL. -/
theorem C10_query_pattern_precedence_witness :
    extract_video_id urlBoth = some ("xyz".toList) :=
  C10_query_pattern_precedence.2 urlBoth ("xyz".toList) (by decide)

/-- C2 (amended): `generate_openai_suggestions` yields `none` exactly when
the reply fails to parse as JSON; a reply that parses is returned as the
parsed value with no check of its shape.  For the well-formed reply of the
specification it yields exactly the three fields with a two-element tags
array, and for a non-JSON reply it yields `none` without raising (the
model is total). -/
theorem C2_suggestion_parse :
    (∀ (vt t tr reply : List Char), json_loads reply = none →
        generate_openai_suggestions vt t tr reply = none)
    ∧ (∀ (vt t tr reply : List Char) (j : Json), json_loads reply = some j →
        generate_openai_suggestions vt t tr reply = some j)
    ∧ (∀ vt t tr : List Char,
        generate_openai_suggestions vt t tr goodReply =
          some (Json.obj [("title".toList, Json.str ("A".toList)),
            ("description".toList, Json.str ("B".toList)),
            ("tags".toList, Json.arr [Json.str ("x".toList), Json.str ("y".toList)])]))
    ∧ (∀ vt t tr : List Char,
        generate_openai_suggestions vt t tr notJsonReply = none) := by
  refine ⟨?_, ?_, ?_, ?_⟩
  · intro vt t tr reply h
    exact h
  · intro vt t tr reply j h
    exact h
  · intro vt t tr
    rfl
  · intro vt t tr
    rfl

/-- Witness for C2 at a concrete non-JSON reply. -/
theorem C2_suggestion_parse_witness :
    generate_openai_suggestions [] [] [] notJsonReply = none :=
  C2_suggestion_parse.1 [] [] [] notJsonReply (by rfl)

/-- C2 counterexample: the reply is valid JSON but does not match the
expected three-key shape, and `generate_openai_suggestions` returns the
parsed object rather than the "no suggestion" result `none`. -/
theorem C2_counterexample :
    json_loads wrongShapeReply = some (Json.obj [("foo".toList, Json.num 1)])
    ∧ isExpectedShape (json_loads wrongShapeReply) = false
    ∧ generate_openai_suggestions [] [] [] wrongShapeReply =
        some (Json.obj [("foo".toList, Json.num 1)]) :=
  ⟨rfl, rfl, rfl⟩

/-- C4: `check_similarity` returns exactly the sub-sequence of headlines,
in original order, whose absolute polarity difference from the content is
strictly below `0.2`: it equals the filter by the strict test, it is a
sublist of the input, a headline at difference exactly `1/5 = 0.2` is
excluded, and one at difference `19/100 = 0.19` is included. -/
theorem C4_similarity_filter :
    (∀ (pol : List Char → ℚ) (vc : List Char) (ts : List (List Char)),
        check_similarity pol vc ts =
          ts.filter (fun t => decide (|pol vc - pol t| < (0.2 : ℚ))))
    ∧ (∀ (pol : List Char → ℚ) (vc : List Char) (ts : List (List Char)),
        (check_similarity pol vc ts).Sublist ts)
    ∧ (∀ (pol : List Char → ℚ) (vc t : List Char), |pol vc - pol t| = 1/5 →
        check_similarity pol vc [t] = [])
    ∧ (∀ (pol : List Char → ℚ) (vc t : List Char), |pol vc - pol t| = 19/100 →
        check_similarity pol vc [t] = [t]) := by
  refine ⟨?_, ?_, ?_, ?_⟩
  · intro pol vc ts
    exact check_similarity_eq_filter pol vc ts
  · intro pol vc ts
    rw [check_similarity_eq_filter]
    exact List.filter_sublist ts
  · intro pol vc t h
    have hlt : ¬(|pol vc - pol t| < (0.2 : ℚ)) := by rw [h]; norm_num
    rw [check_similarity_eq_filter]
    simp [List.filter_cons, hlt]
  · intro pol vc t h
    have hlt : |pol vc - pol t| < (0.2 : ℚ) := by rw [h]; norm_num
    rw [check_similarity_eq_filter]
    simp [List.filter_cons, hlt]

/-- Witness for C4: a headline whose polarity difference from the content
is exactly the threshold is excluded. -/
theorem C4_similarity_filter_witness :
    check_similarity polWitness ("a".toList) [[]] = [] :=
  C4_similarity_filter.2.2.1 polWitness ("a".toList) [] (by
    have h1 : polWitness ("a".toList) = 1/5 := rfl
    have h2 : polWitness [] = 0 := rfl
    rw [h1, h2]
    norm_num)

/-- C5: `get_video_transcript` is total (no failure escapes it): any
failed fetch yields the literal placeholder, and a successful fetch yields
the segment texts concatenated in source order separated by single
spaces, as the specification-side recursion `specJoin` states. -/
theorem C5_transcript_total :
    get_video_transcript none = "Transcript not available.".toList
    ∧ (∀ segs : List (List Char), get_video_transcript (some segs) = specJoin segs)
    ∧ get_video_transcript (some []) = []
    ∧ (∀ s : List Char, get_video_transcript (some [s]) = s)
    ∧ (∀ (s t : List Char) (rest : List (List Char)),
        get_video_transcript (some (s :: t :: rest)) =
          s ++ " ".toList ++ specJoin (t :: rest)) := by
  refine ⟨rfl, ?_, ?_, ?_, ?_⟩
  · intro segs
    exact intercalate_space_eq_specJoin segs
  · exact intercalate_space_eq_specJoin []
  · intro s
    exact intercalate_space_eq_specJoin [s]
  · intro s t rest
    show List.intercalate (" ".toList) (s :: t :: rest) = _
    rw [intercalate_cons_cons, intercalate_space_eq_specJoin]

/-- C6: `get_video_metadata` returns `none` when the response has no
`items` key or an empty items list; otherwise it returns exactly the
first item's title, description and tags, with tags defaulting to the
empty list when the field is absent.  When metadata is not found, the run
halts with that status before news discovery (no news call, no chat
call). -/
theorem C6_metadata :
    get_video_metadata ⟨none⟩ = none
    ∧ get_video_metadata ⟨some []⟩ = none
    ∧ (∀ (s : Snippet) (rest : List Snippet),
        get_video_metadata ⟨some (s :: rest)⟩ =
          some ⟨s.title, s.description, s.tags.getD []⟩)
    ∧ (∀ (ti de : List Char) (rest : List Snippet),
        get_video_metadata ⟨some (⟨ti, de, none⟩ :: rest)⟩ = some ⟨ti, de, []⟩)
    ∧ (∀ (env : Env) (url v : List Char), ¬(url = []) →
        extract_video_id url = some v →
        get_video_metadata env.metadataResp = none →
        ((runPipeline env url).status = RunStatus.metadataNotFound
          ∧ (runPipeline env url).calledNews = false
          ∧ (runPipeline env url).calledOpenAI = false)) := by
  refine ⟨rfl, rfl, ?_, ?_, ?_⟩
  · intro s rest
    rfl
  · intro ti de rest
    rfl
  · intro env url v hurl hext hmd
    simp only [runPipeline, if_neg hurl, hext, hmd]
    exact ⟨trivial, trivial, trivial⟩

/-- Witness for C6: an environment whose platform response has an empty
items list halts the run before news discovery. -/
theorem C6_metadata_witness :
    (runPipeline envNoItems urlShort).status = RunStatus.metadataNotFound
      ∧ (runPipeline envNoItems urlShort).calledNews = false
      ∧ (runPipeline envNoItems urlShort).calledOpenAI = false :=
  C6_metadata.2.2.2.2 envNoItems urlShort ("dQw4w9WgXcQ".toList)
    (by decide) (by decide) rfl

/-- C7: `fetch_google_news` returns at most the first five article titles
in response order (the i-th returned title is the i-th article title, so
nothing is re-sorted or deduplicated), and returns the empty list when
the `articles` key is absent or its list is empty. -/
theorem C7_news :
    (∀ resp : NewsResponse, resp.articles = none → fetch_google_news resp = [])
    ∧ fetch_google_news ⟨some []⟩ = []
    ∧ (∀ arts : List Article, (fetch_google_news ⟨some arts⟩).length ≤ 5)
    ∧ (∀ (arts : List Article) (i : Nat)
        (hi : i < (fetch_google_news ⟨some arts⟩).length) (hi2 : i < arts.length),
        (fetch_google_news ⟨some arts⟩).get ⟨i, hi⟩ = (arts.get ⟨i, hi2⟩).title)
    ∧ (∀ arts : List Article, arts.length ≤ 5 →
        fetch_google_news ⟨some arts⟩ = arts.map Article.title) := by
  refine ⟨?_, rfl, ?_, ?_, ?_⟩
  · intro resp h
    rw [fetch_google_news, h]
  · intro arts
    show ((arts.take 5).map Article.title).length ≤ 5
    simp [List.length_map, List.length_take]
  · intro arts i hi hi2
    show ((arts.take 5).map Article.title).get _ = _
    simp [List.get_eq_getElem, List.getElem_map, List.getElem_take]
  · intro arts h
    show (arts.take 5).map Article.title = arts.map Article.title
    rw [List.take_of_length_le h]

/-- Witness for C7 on a concrete two-article response. -/
theorem C7_news_witness :
    fetch_google_news ⟨some [⟨"alpha".toList⟩, ⟨"beta".toList⟩]⟩ =
      ([⟨"alpha".toList⟩, ⟨"beta".toList⟩] : List Article).map Article.title :=
  C7_news.2.2.2.2 [⟨"alpha".toList⟩, ⟨"beta".toList⟩] (by decide)

/-- C8: the prompt built by `generate_openai_suggestions` depends on the
transcript only through its first 500 characters: replacing the
transcript by its 500-character truncation leaves the prompt unchanged,
so characters beyond position 500 never influence the prompt text. -/
theorem C8_prompt_uses_500 :
    ∀ (video_title transcript trending : List Char),
      buildPrompt video_title transcript trending =
        buildPrompt video_title (transcript.take 500) trending := by
  intro vt t tr
  simp [buildPrompt, List.take_take]

/-- C9 (amended): for every comma-free tag sequence of length at least
two, the commit path does not recover the original sequence: joining with
a comma-space separator and splitting the unedited field on commas yields
a sequence of equal length whose first element is unchanged and whose
later elements each carry a leading space (no trimming is applied).  A
singleton sequence is recovered exactly. -/
theorem C9_tags_round_trip :
    (∀ (t : List Char) (ts : List (List Char)),
        (∀ s ∈ t :: ts, ∀ c ∈ s, ¬(c = commaChar)) →
        splitComma (joinTags (t :: ts)) = t :: ts.map (fun s => spaceChar :: s))
    ∧ (∀ (t : List Char) (ts : List (List Char)),
        (∀ s ∈ t :: ts, ∀ c ∈ s, ¬(c = commaChar)) →
        (splitComma (joinTags (t :: ts))).length = (t :: ts).length)
    ∧ (∀ (t : List Char) (ts : List (List Char)), ¬(ts = []) →
        (∀ s ∈ t :: ts, ∀ c ∈ s, ¬(c = commaChar)) →
        ¬(splitComma (joinTags (t :: ts)) = t :: ts)) := by
  refine ⟨?_, ?_, ?_⟩
  · intro t ts h
    exact splitComma_joinTags ts t (h t (by simp)) (fun s hs => h s (by simp [hs]))
  · intro t ts h
    rw [splitComma_joinTags ts t (h t (by simp)) (fun s hs => h s (by simp [hs]))]
    simp
  · intro t ts hne h hEq
    cases ts with
    | nil => exact hne rfl
    | cons a ts2 =>
      rw [splitComma_joinTags (a :: ts2) t (h t (by simp))
        (fun s hs => h s (by simp [hs]))] at hEq
      simp only [List.map_cons, List.cons.injEq] at hEq
      exact List.cons_ne_self spaceChar a hEq.2.1

/-- Witness for C9 on two comma-free tags: the second returned tag gains
a leading space. -/
theorem C9_tags_round_trip_witness :
    splitComma (joinTags ["a".toList, "b".toList]) =
      "a".toList :: ["b".toList].map (fun s => spaceChar :: s) :=
  C9_tags_round_trip.1 ("a".toList) ["b".toList] (by decide)

/-- C9 counterexample: a singleton comma-free tag sequence is recovered
exactly by the join-then-split round trip, so the round trip is not
lossy for every non-empty comma-free sequence. -/
theorem C9_counterexample :
    (∀ c ∈ "x".toList, ¬(c = commaChar))
    ∧ ¬(("x".toList : List Char) = [])
    ∧ splitComma (joinTags ["x".toList]) = ["x".toList] :=
  ⟨by decide, by decide, by decide⟩

/-- C3 (amended): once a video id is extracted, the metadata and
transcript calls are both issued before the metadata gate is tested;
every later stage is gated on the previous stage producing a usable
result, and a failing gate short-circuits all later stages with the
corresponding terminal status.  A URL matching no identifier pattern
halts the run at stage 1 with the invalid-URL status and no outbound
calls. -/
theorem C3_pipeline_gating :
    (∀ (env : Env) (url : List Char), ¬(url = []) → extract_video_id url = none →
        runPipeline env url =
          ⟨RunStatus.invalidURL, false, false, false, false, none⟩)
    ∧ (∀ (env : Env) (url v : List Char), ¬(url = []) → extract_video_id url = some v →
        ((runPipeline env url).calledMetadata = true
          ∧ (runPipeline env url).calledTranscript = true))
    ∧ (∀ (env : Env) (url v : List Char), ¬(url = []) → extract_video_id url = some v →
        get_video_metadata env.metadataResp = none →
        ((runPipeline env url).status = RunStatus.metadataNotFound
          ∧ (runPipeline env url).calledNews = false
          ∧ (runPipeline env url).calledOpenAI = false))
    ∧ (∀ (env : Env) (url v : List Char) (md : VideoMetadata), ¬(url = []) →
        extract_video_id url = some v →
        get_video_metadata env.metadataResp = some md →
        fetch_google_news env.newsResp = [] →
        ((runPipeline env url).status = RunStatus.newsFetchEmpty
          ∧ (runPipeline env url).calledNews = true
          ∧ (runPipeline env url).calledOpenAI = false))
    ∧ (∀ (env : Env) (url v : List Char) (md : VideoMetadata), ¬(url = []) →
        extract_video_id url = some v →
        get_video_metadata env.metadataResp = some md →
        ¬(fetch_google_news env.newsResp = []) →
        check_similarity env.polarity
            (videoContent md (get_video_transcript env.transcriptFetch))
            (fetch_google_news env.newsResp) = [] →
        ((runPipeline env url).status = RunStatus.noRelevantNews
          ∧ (runPipeline env url).calledOpenAI = false))
    ∧ (∀ (env : Env) (url v : List Char) (md : VideoMetadata), ¬(url = []) →
        extract_video_id url = some v →
        get_video_metadata env.metadataResp = some md →
        ¬(fetch_google_news env.newsResp = []) →
        ¬(check_similarity env.polarity
            (videoContent md (get_video_transcript env.transcriptFetch))
            (fetch_google_news env.newsResp) = []) →
        json_loads env.modelReply = none →
        ((runPipeline env url).status = RunStatus.suggestionParseFailure
          ∧ (runPipeline env url).calledOpenAI = true
          ∧ (runPipeline env url).suggestion = none))
    ∧ (∀ (env : Env) (url v : List Char) (md : VideoMetadata) (j : Json), ¬(url = []) →
        extract_video_id url = some v →
        get_video_metadata env.metadataResp = some md →
        ¬(fetch_google_news env.newsResp = []) →
        ¬(check_similarity env.polarity
            (videoContent md (get_video_transcript env.transcriptFetch))
            (fetch_google_news env.newsResp) = []) →
        json_loads env.modelReply = some j →
        pyTruthy j = true →
        ((runPipeline env url).status = RunStatus.suggestionsReady
          ∧ (runPipeline env url).calledOpenAI = true
          ∧ (runPipeline env url).suggestion = some j)) := by
  refine ⟨?_, ?_, ?_, ?_, ?_, ?_, ?_⟩
  · intro env url hurl hext
    simp only [runPipeline, if_neg hurl, hext]
  · intro env url v hurl hext
    simp only [runPipeline, if_neg hurl, hext]
    constructor <;> (repeat' split) <;> rfl
  · intro env url v hurl hext hmd
    simp only [runPipeline, if_neg hurl, hext, hmd]
    exact ⟨trivial, trivial, trivial⟩
  · intro env url v md hurl hext hmd hnews
    simp only [runPipeline, if_neg hurl, hext, hmd, if_pos hnews]
    exact ⟨trivial, trivial, trivial⟩
  · intro env url v md hurl hext hmd hnews hsim
    simp only [runPipeline, if_neg hurl, hext, hmd, if_neg hnews, if_pos hsim]
    exact ⟨trivial, trivial⟩
  · intro env url v md hurl hext hmd hnews hsim hj
    simp only [runPipeline, if_neg hurl, hext, hmd, if_neg hnews, if_neg hsim,
      generate_openai_suggestions, hj]
    exact ⟨trivial, trivial, trivial⟩
  · intro env url v md j hurl hext hmd hnews hsim hj ht
    simp only [runPipeline, if_neg hurl, hext, hmd, if_neg hnews, if_neg hsim,
      generate_openai_suggestions, hj, if_pos ht]
    exact ⟨trivial, trivial, trivial⟩

/-- Witness for C3: a URL matching neither pattern halts the run with the
invalid-URL status and no outbound calls. -/
theorem C3_pipeline_gating_witness :
    runPipeline envIdle ("https://example.com/video".toList) =
      ⟨RunStatus.invalidURL, false, false, false, false, none⟩ :=
  C3_pipeline_gating.1 envIdle ("https://example.com/video".toList)
    (by decide) (by decide)

/-- C3 counterexample: with a platform response carrying an empty items
list, the metadata stage fails its gate, yet the transcript stage (the
next stage of the specification order) still executes: the metadata and
transcript calls are issued together before the gate is tested, so a
failing metadata gate does not short-circuit the transcript call. -/
theorem C3_counterexample :
    get_video_metadata envNoItems.metadataResp = none
    ∧ (runPipeline envNoItems urlShort).status = RunStatus.metadataNotFound
    ∧ (runPipeline envNoItems urlShort).calledTranscript = true :=
  ⟨rfl, by decide, by decide⟩
